import Mathlib

/-!
Verification of the `rich_life` simulation engine (`src/rich_life/__main__.py`).

The engine (`GameOfLife`) simulates Conway's Game of Life and Langton's Ant on
a sparse grid: a Python `Dict[Tuple[int, int], int]` mapping coordinates to
values.  We embed the engine shallowly: the dict becomes a `Grid` (a finite
support `Finset` together with a value function), Python integers become `Int`,
Python `%` (floor-mod) becomes `Int.fmod`, Python `//` becomes `Int.fdiv`, and
the `random.choice([0, 1])` calls made during Life-mode seeding are modelled by
an explicit stream of coin results consumed in evaluation order.
-/

namespace RichLife

/-- A cell coordinate: a pair of unbounded integers, as in the Python source. -/
abbrev Coord := Int × Int

/-- Model of the Python `Dict[Tuple[int, int], int]` grid: the set of keys
present in the dict together with the value stored at each key.  `val` is
meaningful only on `support` (lookups outside go through the dict default). -/
structure Grid where
  support : Finset Coord
  val : Coord → Nat

/-- `grid.get(c, 0)`: the stored value when the key is present, else `0`. -/
def Grid.get (g : Grid) (c : Coord) : Nat :=
  if c ∈ g.support then g.val c else 0

/-- `grid[c] = v`: dict assignment. -/
def Grid.insert (g : Grid) (c : Coord) (v : Nat) : Grid :=
  ⟨Insert.insert c g.support, Function.update g.val c v⟩

/-- `del grid[c]`: dict deletion. -/
def Grid.erase (g : Grid) (c : Coord) : Grid :=
  ⟨g.support.erase c, g.val⟩

/-- `{}`: the empty dict. -/
def Grid.empty : Grid :=
  ⟨∅, fun _ => 0⟩

/-- Enum `NeighborhoodRules` from the source. -/
inductive NeighborhoodRules where
  | MOORE
  | VAN_NEUMANN
deriving DecidableEq

/-- Enum `SimulationMode` from the source. -/
inductive SimulationMode where
  | LIFE
  | ANTS
deriving DecidableEq

/-- The state held by a `GameOfLife` instance.  In the Python source the
`ant_position` / `ant_direction` attributes exist only in `ANTS` mode; here
they are always present and are placeholders (`(0, 0)` / `0`) in `LIFE` mode. -/
structure GameOfLife where
  display_width : Int
  display_height : Int
  infinite_mode : Bool
  rules : NeighborhoodRules
  offset : Coord
  mode : SimulationMode
  generation : Nat
  refresh_per_second : Int
  grid : Grid
  ant_position : Coord
  ant_direction : Int

/-- Python `range(n)` for an `int` argument (empty when `n ≤ 0`). -/
def intRange (n : Int) : List Int :=
  (List.range n.toNat).map Int.ofNat

/-- The cells enumerated by the seeding comprehension, in evaluation order:
`for x in range(display_width) for y in range(display_height)`, with each cell
keyed as `(x + offset[0], y + offset[1])`. -/
def windowCells (w h : Int) (off : Coord) : List Coord :=
  (intRange w).flatMap fun x => (intRange h).map fun y => (x + off.1, y + off.2)

/-- The Life-mode seeding dict comprehension
`{(x+ox, y+oy): random.choice([0,1]) for x ... for y ... if random.choice([0,1]) == 1}`.
Per cell the filter condition draws one coin; only when that coin is `1` is the
cell inserted, with a second, independent coin draw as its stored value.
`k` indexes the next unconsumed coin of the stream. -/
def seedLoop (coins : Nat → Fin 2) : List Coord → Nat → Grid → Grid
  | [], _, g => g
  | c :: cs, k, g =>
    if coins k = 1 then
      seedLoop coins cs (k + 2) (g.insert c (coins (k + 1)).val)
    else
      seedLoop coins cs (k + 1) g

/-- `GameOfLife.__init__`.  `offset or (0, 0)` is `Option.getD` (every 2-tuple
is truthy in Python, so only `None` falls back).  No parameter validation is
performed by the source. -/
def GameOfLife.init (display_width display_height : Int) (infinite_mode : Bool)
    (rules : NeighborhoodRules) (offset : Option Coord) (mode : SimulationMode)
    (refresh_per_second : Int) (coins : Nat → Fin 2) : GameOfLife :=
  let off := offset.getD (0, 0)
  if mode = SimulationMode.LIFE then
    { display_width := display_width
      display_height := display_height
      infinite_mode := infinite_mode
      rules := rules
      offset := off
      mode := mode
      generation := 0
      refresh_per_second := refresh_per_second
      grid := seedLoop coins (windowCells display_width display_height off) 0 Grid.empty
      ant_position := (0, 0)
      ant_direction := 0 }
  else
    { display_width := display_width
      display_height := display_height
      infinite_mode := infinite_mode
      rules := rules
      offset := off
      mode := mode
      generation := 0
      refresh_per_second := refresh_per_second
      grid := Grid.empty
      ant_position := (display_width.fdiv 2 + off.1, display_height.fdiv 2 + off.2)
      ant_direction := 0 }

/-- The neighbor offsets iterated by `get_neighbors_van_neumann`, in source
order. -/
def vanNeumannOffsets : List Coord :=
  [(-1, 0), (1, 0), (0, -1), (0, 1)]

/-- The neighbor offsets iterated by `get_neighbors_moore`: `dx` outer, `dy`
inner, skipping `(0, 0)`. -/
def mooreOffsets : List Coord :=
  [(-1, -1), (-1, 0), (-1, 1), (0, -1), (0, 1), (1, -1), (1, 0), (1, 1)]

/-- The finite-boundary wrap applied to a neighbor coordinate before lookup:
`nx = (nx - offset[0]) % display_width + offset[0]` and likewise for `ny`,
with Python floor-mod (`Int.fmod`). -/
def GameOfLife.wrapFinite (st : GameOfLife) (c : Coord) : Coord :=
  ((c.1 - st.offset.1).fmod st.display_width + st.offset.1,
   (c.2 - st.offset.2).fmod st.display_height + st.offset.2)

/-- Shared body of the two neighbor-counting loops: add the alive value at the
raw neighbor coordinate in infinite mode, at the wrapped coordinate in finite
mode. -/
def GameOfLife.neighborCount (st : GameOfLife) (x y : Int) (offs : List Coord) : Nat :=
  offs.foldl
    (fun count d =>
      let n : Coord := (x + d.1, y + d.2)
      if st.infinite_mode then count + st.grid.get n
      else count + st.grid.get (st.wrapFinite n))
    0

/-- `GameOfLife.get_neighbors_van_neumann`. -/
def GameOfLife.get_neighbors_van_neumann (st : GameOfLife) (x y : Int) : Nat :=
  st.neighborCount x y vanNeumannOffsets

/-- `GameOfLife.get_neighbors_moore`. -/
def GameOfLife.get_neighbors_moore (st : GameOfLife) (x y : Int) : Nat :=
  st.neighborCount x y mooreOffsets

/-- `GameOfLife.get_neighbors`: ruleset dispatch. -/
def GameOfLife.get_neighbors (st : GameOfLife) (x y : Int) : Nat :=
  if st.rules = NeighborhoodRules.VAN_NEUMANN then
    st.get_neighbors_van_neumann x y
  else
    st.get_neighbors_moore x y

/-- The candidate-expansion offsets of `_next_generation_life`:
`for dx in [-1, 0, 1] for dy in [-1, 0, 1]` with no pair skipped. -/
def expandOffsets : List Coord :=
  [(-1, -1), (-1, 0), (-1, 1), (0, -1), (0, 0), (0, 1), (1, -1), (1, 0), (1, 1)]

/-- The 9-coordinate expansion of one alive cell used to build candidates. -/
def expand9 (c : Coord) : Finset Coord :=
  (expandOffsets.map fun d => (c.1 + d.1, c.2 + d.2)).toFinset

/-- `cells_to_check = set(self.grid.keys()) | {(x+dx, y+dy) for x, y in self.grid
for dx in [-1,0,1] for dy in [-1,0,1]}`. -/
def GameOfLife.cellsToCheck (st : GameOfLife) : Finset Coord :=
  st.grid.support ∪ st.grid.support.biUnion expand9

/-- The per-candidate keep condition of `_next_generation_life`:
`if self.grid.get((x,y), 0) == 1: keep iff 2 <= neighbors <= 3;
elif neighbors == 3: keep`. -/
def GameOfLife.lifeKeep (st : GameOfLife) (c : Coord) : Prop :=
  (st.grid.get c = 1 ∧ 2 ≤ st.get_neighbors c.1 c.2 ∧ st.get_neighbors c.1 c.2 ≤ 3) ∨
    (st.grid.get c ≠ 1 ∧ st.get_neighbors c.1 c.2 = 3)

instance (st : GameOfLife) : DecidablePred st.lifeKeep := fun c => by
  unfold GameOfLife.lifeKeep; infer_instance

/-- `GameOfLife._next_generation_life`: the new grid holds value `1` at exactly
the candidates passing the keep condition; generation increments. -/
def GameOfLife.next_generation_life (st : GameOfLife) : GameOfLife :=
  { st with
    grid := ⟨st.cellsToCheck.filter st.lifeKeep, fun _ => 1⟩
    generation := st.generation + 1 }

/-- The direction-vector list `[(0, -1), (1, 0), (0, 1), (-1, 0)]` indexed by
the ant's heading (0 North, 1 East, 2 South, 3 West). -/
def dirVec (d : Int) : Coord :=
  match d.toNat with
  | 0 => (0, -1)
  | 1 => (1, 0)
  | 2 => (0, 1)
  | _ => (-1, 0)

/-- `GameOfLife._next_generation_ant`: flip the cell under the ant, turn right
on a dead cell and left on an alive one (Python `% 4`, i.e. `Int.fmod`), move
one step along the new heading, increment the generation. -/
def GameOfLife.next_generation_ant (st : GameOfLife) : GameOfLife :=
  let x := st.ant_position.1
  let y := st.ant_position.2
  let current_color := st.grid.get (x, y)
  let grid' := if current_color = 0 then st.grid.insert (x, y) 1 else st.grid.erase (x, y)
  let dir' :=
    if current_color = 0 then (st.ant_direction + 1).fmod 4
    else (st.ant_direction - 1).fmod 4
  let d := dirVec dir'
  { st with
    grid := grid'
    ant_direction := dir'
    ant_position := (x + d.1, y + d.2)
    generation := st.generation + 1 }

/-- `GameOfLife.next_generation`: mode dispatch. -/
def GameOfLife.next_generation (st : GameOfLife) : GameOfLife :=
  if st.mode = SimulationMode.LIFE then st.next_generation_life
  else st.next_generation_ant

/-- `GameOfLife.handle_key_press`: the key name decides which offset component
moves by one; any other key leaves the state unchanged. -/
def GameOfLife.handle_key_press (st : GameOfLife) (key : String) : GameOfLife :=
  if key ∈ ["w", "up"] then
    { st with offset := (st.offset.1, st.offset.2 - 1) }
  else if key ∈ ["s", "down"] then
    { st with offset := (st.offset.1, st.offset.2 + 1) }
  else if key ∈ ["a", "left"] then
    { st with offset := (st.offset.1 - 1, st.offset.2) }
  else if key ∈ ["d", "right"] then
    { st with offset := (st.offset.1 + 1, st.offset.2) }
  else
    st

/-- The width×height viewport window rooted at the offset (the region the
render loop iterates). -/
def GameOfLife.inWindow (st : GameOfLife) (c : Coord) : Prop :=
  st.offset.1 ≤ c.1 ∧ c.1 < st.offset.1 + st.display_width ∧
    st.offset.2 ≤ c.2 ∧ c.2 < st.offset.2 + st.display_height

instance (st : GameOfLife) : DecidablePred st.inWindow := fun c => by
  unfold GameOfLife.inWindow; infer_instance

/-- The full 8-cell Moore neighborhood of a coordinate, as the spec describes
candidate expansion. -/
def mooreNeighborhood (c : Coord) : Finset Coord :=
  (mooreOffsets.map fun d => (c.1 + d.1, c.2 + d.2)).toFinset

/-- The coordinates the spec calls currently alive: present with value `1`. -/
def GameOfLife.aliveCells (st : GameOfLife) : Finset Coord :=
  st.grid.support.filter fun c => st.grid.get c = 1

/-- Build a Life-mode state at offset `(0, 0)` whose grid holds value `1` at
the given cells; used for the concrete checks below. -/
def lifeState (w h : Int) (inf : Bool) (cells : List Coord) : GameOfLife :=
  { display_width := w
    display_height := h
    infinite_mode := inf
    rules := NeighborhoodRules.MOORE
    offset := (0, 0)
    mode := SimulationMode.LIFE
    generation := 0
    refresh_per_second := 10
    grid := ⟨cells.toFinset, fun _ => 1⟩
    ant_position := (0, 0)
    ant_direction := 0 }

/-- All nine cells of the 3×3 window at the origin. -/
def all9 : List Coord :=
  [(0, 0), (1, 0), (2, 0), (0, 1), (1, 1), (2, 1), (0, 2), (1, 2), (2, 2)]

/-- A 3×3 finite-boundary Life state with all nine window cells alive. -/
def st3fin : GameOfLife := lifeState 3 3 false all9

/-- A 3×3 infinite-boundary Life state with the same nine cells alive. -/
def st3inf : GameOfLife := lifeState 3 3 true all9

/-- A 5×5 finite-boundary Life state holding the vertical blinker. -/
def blinker5 : GameOfLife := lifeState 5 5 false [(2, 1), (2, 2), (2, 3)]

/-- A 5×5 finite-boundary Life state with a vertical triple at column 0. -/
def col05 : GameOfLife := lifeState 5 5 false [(0, 1), (0, 2), (0, 3)]

/-- A coin stream whose first draw is `1` and whose every later draw is `0`:
the seeding filter accepts the first cell, then stores value `0` there. -/
def coinsHeadThenTails : Nat → Fin 2 := fun k => if k = 0 then 1 else 0

/-- An Ant-mode state as constructed by `GameOfLife.__init__`. -/
def GameOfLife.initAnt (w h ox oy : Int) (inf : Bool) (r : NeighborhoodRules)
    (rps : Int) (coins : Nat → Fin 2) : GameOfLife :=
  GameOfLife.init w h inf r (some (ox, oy)) SimulationMode.ANTS rps coins

/-- The concrete 5×5 Ant-mode state used as a witness input. -/
def antStart : GameOfLife :=
  GameOfLife.initAnt 5 5 0 0 true NeighborhoodRules.MOORE 10 coinsHeadThenTails

/-- C1: the claim says every coordinate present in the grid mapping has value 1
and that Life-mode construction flips one fair coin per window cell, storing
alive cells only.  The seeding comprehension draws a second, independent coin
as the stored value of each accepted cell, so a 1×1 Life construction whose
coin stream starts `1, 0` produces a grid containing coordinate `(0, 0)` with
stored value `0`: a dead cell explicitly present in the mapping, contradicting
the source's own comment that only living cells are stored. -/
theorem C1_construction_stores_dead_cell :
    (((0 : Int), (0 : Int)) : Coord) ∈
        (GameOfLife.init 1 1 true NeighborhoodRules.MOORE none SimulationMode.LIFE 10
          coinsHeadThenTails).grid.support ∧
      (GameOfLife.init 1 1 true NeighborhoodRules.MOORE none SimulationMode.LIFE 10
          coinsHeadThenTails).grid.get ((0 : Int), (0 : Int)) = 0 := by
  decide

/-- Python `range(n)` is empty for a non-positive `int` argument. -/
theorem intRange_eq_nil {n : Int} (h : n ≤ 0) : intRange n = [] := by
  unfold intRange
  rw [Int.toNat_of_nonpos h]
  rfl

/-- The seeding window enumerates no cells when either dimension is
non-positive. -/
theorem windowCells_eq_nil {w h : Int} (off : Coord) (hwh : w ≤ 0 ∨ h ≤ 0) :
    windowCells w h off = [] := by
  unfold windowCells
  rcases hwh with hw | hh
  · rw [intRange_eq_nil hw]
    rfl
  · rw [intRange_eq_nil hh]
    simp

/-- C2 (amended): construction with non-positive width or height performs no
validation and raises no error; the engine is created normally, and in Life
mode the seeding window is empty, so the grid starts empty with generation 0. -/
theorem C2_nonpositive_dims_accepted (w h : Int) (inf : Bool) (r : NeighborhoodRules)
    (off : Option Coord) (rps : Int) (coins : Nat → Fin 2) (hwh : w ≤ 0 ∨ h ≤ 0) :
    (GameOfLife.init w h inf r off SimulationMode.LIFE rps coins).grid.support = ∅ ∧
      (GameOfLife.init w h inf r off SimulationMode.LIFE rps coins).generation = 0 := by
  simp [GameOfLife.init, windowCells_eq_nil _ hwh, seedLoop, Grid.empty]

/-- C2 witness: the amended statement holds at width 0, height 0. -/
theorem C2_nonpositive_dims_accepted_witness :
    (GameOfLife.init 0 0 true NeighborhoodRules.MOORE none SimulationMode.LIFE 10
        coinsHeadThenTails).grid.support = ∅ ∧
      (GameOfLife.init 0 0 true NeighborhoodRules.MOORE none SimulationMode.LIFE 10
          coinsHeadThenTails).generation = 0 :=
  C2_nonpositive_dims_accepted 0 0 true NeighborhoodRules.MOORE none 10
    coinsHeadThenTails (Or.inl (by decide))

/-- C2 counterexample: constructing with width 0 and height 0 raises nothing —
a fully formed engine state is produced (Life mode, empty grid, generation 0,
the zero dimensions stored as given), refuting that construction fails fast
with a configuration error and creates no engine state. -/
theorem C2_counterexample_zero_dims :
    (GameOfLife.init 0 0 true NeighborhoodRules.MOORE none SimulationMode.LIFE 10
        coinsHeadThenTails).mode = SimulationMode.LIFE ∧
      (GameOfLife.init 0 0 true NeighborhoodRules.MOORE none SimulationMode.LIFE 10
          coinsHeadThenTails).generation = 0 ∧
      (GameOfLife.init 0 0 true NeighborhoodRules.MOORE none SimulationMode.LIFE 10
          coinsHeadThenTails).grid.support = ∅ ∧
      (GameOfLife.init 0 0 true NeighborhoodRules.MOORE none SimulationMode.LIFE 10
          coinsHeadThenTails).display_width = 0 := by
  decide

/-- C3: in Life mode, one `advance()` replaces the grid with exactly the
candidates that satisfy the rule — an alive cell (stored value 1) survives iff
its neighbor count under the configured ruleset is 2 or 3, a dead cell becomes
alive iff its count is exactly 3 — with the same literal thresholds for every
ruleset (the state quantified here carries an arbitrary ruleset); every cell
failing the condition is absent, every stored value is 1, and the generation
rises by exactly 1. -/
theorem C3_life_step_rule (st : GameOfLife) (h : st.mode = SimulationMode.LIFE) :
    (∀ c : Coord,
        c ∈ st.next_generation.grid.support ↔
          c ∈ st.cellsToCheck ∧
            ((st.grid.get c = 1 ∧
                2 ≤ st.get_neighbors c.1 c.2 ∧ st.get_neighbors c.1 c.2 ≤ 3) ∨
              (st.grid.get c ≠ 1 ∧ st.get_neighbors c.1 c.2 = 3))) ∧
      (∀ c : Coord, c ∈ st.next_generation.grid.support →
        st.next_generation.grid.get c = 1) ∧
      st.next_generation.generation = st.generation + 1 := by
  have hng : st.next_generation = st.next_generation_life := by
    simp [GameOfLife.next_generation, h]
  rw [hng]
  refine ⟨fun c => ?_, fun c hc => ?_, rfl⟩
  · show c ∈ (st.cellsToCheck.filter st.lifeKeep) ↔ _
    rw [Finset.mem_filter]
    exact Iff.rfl
  · have : c ∈ st.cellsToCheck.filter st.lifeKeep := hc
    simp [GameOfLife.next_generation_life, Grid.get, this]

/-- C3 witness: the Life rule theorem applied to the concrete blinker state. -/
theorem C3_life_step_rule_witness :
    blinker5.next_generation.generation = blinker5.generation + 1 :=
  (C3_life_step_rule blinker5 rfl).2.2

/-- C4: in finite boundary mode every neighbor lookup goes through the
per-axis floor-mod wrap `(coord - offset) mod dimension + offset`, whose
residue is non-negative and below the dimension whenever the dimensions are
positive, while infinite mode looks the raw coordinate up directly; on the
3×3 finite grid with all nine cells alive every cell counts exactly 8 Moore
neighbors, and in infinite mode the corner `(0, 0)` of the same pattern
counts only 3. -/
theorem C4_wrap_and_neighbor_counts :
    (∀ (st : GameOfLife) (x y : Int) (offs : List Coord), st.infinite_mode = false →
        st.neighborCount x y offs =
          offs.foldl
            (fun count d => count + st.grid.get (st.wrapFinite (x + d.1, y + d.2))) 0) ∧
      (∀ (st : GameOfLife) (x y : Int) (offs : List Coord), st.infinite_mode = true →
        st.neighborCount x y offs =
          offs.foldl (fun count d => count + st.grid.get (x + d.1, y + d.2)) 0) ∧
      (∀ (st : GameOfLife) (c : Coord),
        0 < st.display_width → 0 < st.display_height →
          st.wrapFinite c =
              ((c.1 - st.offset.1).fmod st.display_width + st.offset.1,
                (c.2 - st.offset.2).fmod st.display_height + st.offset.2) ∧
            0 ≤ (c.1 - st.offset.1).fmod st.display_width ∧
            (c.1 - st.offset.1).fmod st.display_width < st.display_width ∧
            0 ≤ (c.2 - st.offset.2).fmod st.display_height ∧
            (c.2 - st.offset.2).fmod st.display_height < st.display_height) ∧
      (∀ c ∈ all9, st3fin.get_neighbors_moore c.1 c.2 = 8) ∧
      st3inf.get_neighbors_moore 0 0 = 3 := by
  refine ⟨?_, ?_, ?_, by decide, by decide⟩
  · intro st x y offs h
    simp [GameOfLife.neighborCount, h]
  · intro st x y offs h
    simp [GameOfLife.neighborCount, h]
  · intro st c hw hh
    refine ⟨rfl, ?_, ?_, ?_, ?_⟩
    · rw [Int.fmod_eq_emod _ (le_of_lt hw)]
      exact Int.emod_nonneg _ (ne_of_gt hw)
    · rw [Int.fmod_eq_emod _ (le_of_lt hw)]
      exact Int.emod_lt_of_pos _ hw
    · rw [Int.fmod_eq_emod _ (le_of_lt hh)]
      exact Int.emod_nonneg _ (ne_of_gt hh)
    · rw [Int.fmod_eq_emod _ (le_of_lt hh)]
      exact Int.emod_lt_of_pos _ hh

/-- C4 witness: the wrap bounds applied to the concrete 3×3 finite state at
the out-of-window coordinate `(7, -4)`. -/
theorem C4_wrap_and_neighbor_counts_witness :
    st3fin.wrapFinite ((7 : Int), (-4 : Int)) =
        (((7 : Int) - st3fin.offset.1).fmod st3fin.display_width + st3fin.offset.1,
          ((-4 : Int) - st3fin.offset.2).fmod st3fin.display_height + st3fin.offset.2) ∧
      0 ≤ ((7 : Int) - st3fin.offset.1).fmod st3fin.display_width ∧
      ((7 : Int) - st3fin.offset.1).fmod st3fin.display_width < st3fin.display_width ∧
      0 ≤ ((-4 : Int) - st3fin.offset.2).fmod st3fin.display_height ∧
      ((-4 : Int) - st3fin.offset.2).fmod st3fin.display_height < st3fin.display_height :=
  C4_wrap_and_neighbor_counts.2.2.1 st3fin (7, -4) (by decide) (by decide)

set_option maxHeartbeats 2000000 in
/-- Membership in the 9-offset expansion of a cell: the cell itself or one of
its eight Moore neighbors. -/
theorem mem_expand9 (c x : Coord) :
    x ∈ expand9 c ↔ x = c ∨ x ∈ mooreNeighborhood c := by
  simp [expand9, mooreNeighborhood, expandOffsets, mooreOffsets, Prod.ext_iff]
  tauto

/-- When every stored value is 1, the alive cells are exactly the mapping's
keys. -/
theorem aliveCells_eq_support (st : GameOfLife)
    (hinv : ∀ c ∈ st.grid.support, st.grid.val c = 1) :
    st.aliveCells = st.grid.support := by
  ext c
  simp only [GameOfLife.aliveCells, Finset.mem_filter, Grid.get, and_iff_left_iff_imp]
  intro hc
  rw [if_pos hc]
  exact hinv c hc

/-- C5: for any state whose stored values are all 1 (the intended grid
invariant) and under either configured ruleset, the candidate set evaluated
by a Life-mode `advance()` is exactly the union of the currently-alive
coordinates and their full 8-cell Moore neighborhoods. -/
theorem C5_candidates_moore_expansion (st : GameOfLife) (r : NeighborhoodRules)
    (hinv : ∀ c ∈ st.grid.support, st.grid.val c = 1) :
    ({ st with rules := r } : GameOfLife).cellsToCheck =
      st.aliveCells ∪ st.aliveCells.biUnion mooreNeighborhood := by
  rw [aliveCells_eq_support st hinv]
  show st.grid.support ∪ st.grid.support.biUnion expand9 =
    st.grid.support ∪ st.grid.support.biUnion mooreNeighborhood
  ext x
  simp only [Finset.mem_union, Finset.mem_biUnion, mem_expand9]
  constructor
  · rintro (h | ⟨c, hc, rfl | hnb⟩)
    · exact Or.inl h
    · exact Or.inl hc
    · exact Or.inr ⟨c, hc, hnb⟩
  · rintro (h | ⟨c, hc, hnb⟩)
    · exact Or.inl h
    · exact Or.inr ⟨c, hc, Or.inr hnb⟩

/-- C5 witness: the candidate characterization at the concrete blinker state
with the Von Neumann ruleset active. -/
theorem C5_candidates_moore_expansion_witness :
    ({ blinker5 with rules := NeighborhoodRules.VAN_NEUMANN } : GameOfLife).cellsToCheck =
      blinker5.aliveCells ∪ blinker5.aliveCells.biUnion mooreNeighborhood :=
  C5_candidates_moore_expansion blinker5 NeighborhoodRules.VAN_NEUMANN (by decide)

/-- Python `% 4` of any integer is non-negative. -/
theorem fmod_four_nonneg (a : Int) : 0 ≤ a.fmod 4 := by
  rw [Int.fmod_eq_emod _ (by decide : (0 : Int) ≤ 4)]
  exact Int.emod_nonneg _ (by decide)

/-- C6: one Ant-mode `advance()` flips the cell under the ant (a dead cell is
stored alive with value 1; an alive cell is deleted from the mapping), turns
right (`(index + 1) mod 4`) when the cell was dead and left
(`(index - 1) mod 4`, non-negative) when it was alive, moves one cell along
the new heading using the vectors North `(0, -1)`, East `(1, 0)`,
South `(0, 1)`, West `(-1, 0)` for indices 0..3, and increments the
generation by 1. -/
theorem C6_ant_step (st : GameOfLife) (h : st.mode = SimulationMode.ANTS) :
    (st.grid.get st.ant_position = 0 →
        st.next_generation.grid.support = Insert.insert st.ant_position st.grid.support ∧
          st.next_generation.grid.get st.ant_position = 1 ∧
          st.next_generation.ant_direction = (st.ant_direction + 1).fmod 4) ∧
      (st.grid.get st.ant_position ≠ 0 →
        st.next_generation.grid.support = st.grid.support.erase st.ant_position ∧
          st.next_generation.ant_direction = (st.ant_direction - 1).fmod 4) ∧
      0 ≤ st.next_generation.ant_direction ∧
      st.next_generation.ant_position =
        (st.ant_position.1 + (dirVec st.next_generation.ant_direction).1,
          st.ant_position.2 + (dirVec st.next_generation.ant_direction).2) ∧
      dirVec 0 = (0, -1) ∧ dirVec 1 = (1, 0) ∧ dirVec 2 = (0, 1) ∧ dirVec 3 = (-1, 0) ∧
      st.next_generation.generation = st.generation + 1 := by
  have hng : st.next_generation = st.next_generation_ant := by
    simp [GameOfLife.next_generation, h]
  rw [hng]
  by_cases h0 : st.grid.get (st.ant_position.1, st.ant_position.2) = 0
  · have hgrid : st.next_generation_ant.grid =
        st.grid.insert (st.ant_position.1, st.ant_position.2) 1 := by
      unfold GameOfLife.next_generation_ant
      simp [h0]
    have hdir : st.next_generation_ant.ant_direction = (st.ant_direction + 1).fmod 4 := by
      unfold GameOfLife.next_generation_ant
      simp [h0]
    refine ⟨fun _ => ⟨?_, ?_, hdir⟩, fun hne => absurd h0 hne, ?_, rfl, rfl, rfl, rfl,
      rfl, rfl⟩
    · rw [hgrid]
      rfl
    · rw [hgrid]
      simp [Grid.insert, Grid.get, Function.update]
    · rw [hdir]
      exact fmod_four_nonneg _
  · have hgrid : st.next_generation_ant.grid =
        st.grid.erase (st.ant_position.1, st.ant_position.2) := by
      unfold GameOfLife.next_generation_ant
      simp [h0]
    have hdir : st.next_generation_ant.ant_direction = (st.ant_direction - 1).fmod 4 := by
      unfold GameOfLife.next_generation_ant
      simp [h0]
    refine ⟨fun he => absurd he h0, fun _ => ⟨?_, hdir⟩, ?_, rfl, rfl, rfl, rfl,
      rfl, rfl⟩
    · rw [hgrid]
      rfl
    · rw [hdir]
      exact fmod_four_nonneg _

/-- C6 witness: the ant-step theorem applied to the concrete Ant-mode start
state. -/
theorem C6_ant_step_witness :
    0 ≤ antStart.next_generation.ant_direction :=
  (C6_ant_step antStart rfl).2.2.1

/-- C7: one `advance()` of the 5×5 finite-boundary vertical blinker yields
exactly the horizontal blinker, every stored value is 1, and the generation
goes from 0 to 1. -/
theorem C7_blinker_advance :
    blinker5.next_generation.grid.support =
        ({((1 : Int), (2 : Int)), ((2 : Int), (2 : Int)), ((3 : Int), (2 : Int))} :
          Finset Coord) ∧
      (∀ c ∈ blinker5.next_generation.grid.support,
        blinker5.next_generation.grid.get c = 1) ∧
      blinker5.generation = 0 ∧ blinker5.next_generation.generation = 1 := by
  decide

/-- C9: in finite boundary mode live cells are not confined to the viewport
window: the vertical triple at column 0 of a 5×5 window lies entirely inside
the window, yet one `advance()` births a cell at `(-1, 2)`, outside it —
candidate and birth coordinates are raw, only neighbor lookups wrap. -/
theorem C9_birth_outside_window :
    (∀ c ∈ col05.grid.support, col05.inWindow c) ∧
      (((-1 : Int), (2 : Int)) : Coord) ∈ col05.next_generation.grid.support ∧
      ¬ col05.inWindow ((-1 : Int), (2 : Int)) := by
  decide

/-- Ant-mode construction unfolded: empty grid, ant at the integer-division
center of the offset window, heading North. -/
theorem initAnt_eq (w h ox oy : Int) (inf : Bool) (r : NeighborhoodRules)
    (rps : Int) (coins : Nat → Fin 2) :
    GameOfLife.initAnt w h ox oy inf r rps coins =
      { display_width := w
        display_height := h
        infinite_mode := inf
        rules := r
        offset := (ox, oy)
        mode := SimulationMode.ANTS
        generation := 0
        refresh_per_second := rps
        grid := Grid.empty
        ant_position := (w.fdiv 2 + ox, h.fdiv 2 + oy)
        ant_direction := 0 } := rfl

/-- C8: Ant-mode construction with positive dimensions and offset `(ox, oy)`
starts with an empty grid, the ant at `(w/2 + ox, h/2 + oy)` (integer
division) heading North (index 0); one `advance()` marks that starting cell
alive (value 1), turns the heading to East (index 1) and moves the ant one
cell east, so the starting coordinate stays in the grid while the ant's new
position differs from the start. -/
theorem C8_ant_construction_first_step (st : GameOfLife) (w h ox oy : Int)
    (inf : Bool) (r : NeighborhoodRules) (rps : Int) (coins : Nat → Fin 2)
    (hw : 0 < w) (hh : 0 < h)
    (hst : st = GameOfLife.initAnt w h ox oy inf r rps coins) :
    st.grid.support = ∅ ∧
      st.ant_position = (w.fdiv 2 + ox, h.fdiv 2 + oy) ∧
      st.ant_direction = 0 ∧
      st.next_generation.grid.get st.ant_position = 1 ∧
      st.ant_position ∈ st.next_generation.grid.support ∧
      st.next_generation.ant_direction = 1 ∧
      st.next_generation.ant_position = (st.ant_position.1 + 1, st.ant_position.2) ∧
      st.next_generation.ant_position ≠ st.ant_position := by
  subst hst
  rw [initAnt_eq]
  refine ⟨rfl, rfl, rfl, ?_, ?_, rfl, ?_, ?_⟩
  · simp [GameOfLife.next_generation, GameOfLife.next_generation_ant, Grid.get,
      Grid.insert, Grid.empty, Function.update]
  · simp [GameOfLife.next_generation, GameOfLife.next_generation_ant, Grid.get,
      Grid.insert, Grid.empty]
  · simp [GameOfLife.next_generation, GameOfLife.next_generation_ant, Grid.get,
      Grid.empty, dirVec]
  · simp [GameOfLife.next_generation, GameOfLife.next_generation_ant, Grid.get,
      Grid.empty, dirVec, Prod.ext_iff]

/-- C8 witness: the construction and first-step theorem at the concrete 5×5
Ant-mode state. -/
theorem C8_ant_construction_first_step_witness :
    antStart.next_generation.ant_position ≠ antStart.ant_position :=
  (C8_ant_construction_first_step antStart 5 5 0 0 true NeighborhoodRules.MOORE 10
      coinsHeadThenTails (by decide) (by decide) rfl).2.2.2.2.2.2.2

/-- Panning right and then left returns the engine to exactly its original
state. -/
theorem pan_right_left (s : GameOfLife) :
    (s.handle_key_press "right").handle_key_press "left" = s := by
  simp [GameOfLife.handle_key_press]

/-- C10: each directional pan shifts the viewport offset by exactly 1 along
one axis; no key press changes the grid, the generation counter or the ant
state; and panning right `n` times then left `n` times restores the original
state, offset included. -/
theorem C10_pan_moves_offset_only (st : GameOfLife) (n : Nat) :
    (st.handle_key_press "right").offset = (st.offset.1 + 1, st.offset.2) ∧
      (st.handle_key_press "left").offset = (st.offset.1 - 1, st.offset.2) ∧
      (st.handle_key_press "up").offset = (st.offset.1, st.offset.2 - 1) ∧
      (st.handle_key_press "down").offset = (st.offset.1, st.offset.2 + 1) ∧
      (∀ key : String,
        (st.handle_key_press key).grid = st.grid ∧
          (st.handle_key_press key).generation = st.generation ∧
          (st.handle_key_press key).ant_position = st.ant_position ∧
          (st.handle_key_press key).ant_direction = st.ant_direction) ∧
      (fun s : GameOfLife => s.handle_key_press "left")^[n]
          ((fun s : GameOfLife => s.handle_key_press "right")^[n] st) = st := by
  refine ⟨?_, ?_, ?_, ?_, ?_, ?_⟩
  · simp [GameOfLife.handle_key_press]
  · simp [GameOfLife.handle_key_press]
  · simp [GameOfLife.handle_key_press]
  · simp [GameOfLife.handle_key_press]
  · intro key
    unfold GameOfLife.handle_key_press
    repeat' split
    all_goals exact ⟨rfl, rfl, rfl, rfl⟩
  · induction n with
    | zero => rfl
    | succ k ih =>
      rw [Function.iterate_succ_apply
          (fun s : GameOfLife => GameOfLife.handle_key_press s "left") k,
        Function.iterate_succ_apply'
          (fun s : GameOfLife => GameOfLife.handle_key_press s "right") k st]
      simp only [pan_right_left]
      exact ih

/-- C10 witness: the pan theorem applied to the concrete 3×3 finite state with
two right pans followed by two left pans. -/
theorem C10_pan_moves_offset_only_witness :
    (fun s : GameOfLife => s.handle_key_press "left")^[2]
        ((fun s : GameOfLife => s.handle_key_press "right")^[2] st3fin) = st3fin :=
  (C10_pan_moves_offset_only st3fin 2).2.2.2.2.2

end RichLife
